import Mathlib

/-!
Shallow embedding of the agglayer transaction-intake and settlement gateway:
the proof codec and signed-submission model (crates/agglayer-node/src/signed_tx.rs),
the epoch clock (crates/agglayer-clock/src/time.rs) and the intake pipeline
(crates/agglayer-node/src/rpc/mod.rs), together with theorems settling the
specification claims about them.

Bytes are modelled as natural numbers below 256, byte strings as lists of
naturals, and 64-bit machine arithmetic as natural-number arithmetic reduced
modulo 2 ^ 64 where overflow matters.
-/

namespace Agglayer

/-! ## Keccak-256

The agglayer's canonical submission hash uses the keccak256 function of the
ethers library (legacy Keccak with 0x01 domain padding, rate 1088 bits,
256-bit output).  It is embedded here as an executable function on byte
lists; lanes are naturals kept below 2 ^ 64.
-/

/-- Rotate a 64-bit lane left by r bits. -/
def rotl64 (x r : Nat) : Nat :=
  ((x <<< r) ||| (x >>> (64 - r))) % (2 ^ 64)

/-- Bitwise complement of a 64-bit lane. -/
def not64 (x : Nat) : Nat := Nat.xor x (2 ^ 64 - 1)

/-- One step of the degree-8 LFSR generating the keccak round-constant
bits (polynomial x^8 + x^6 + x^5 + x^4 + 1). -/
def rcLfsrStep (s : Nat) : Nat :=
  let s2 := 2 * s
  if s2 ≥ 256 then Nat.xor s2 0x171 else s2

/-- Bit t of the keccak round-constant bit stream. -/
def rcBit (t : Nat) : Nat :=
  (Nat.rec 1 (fun _ s => rcLfsrStep s) t : Nat) &&& 1

/-- Round constants of the 24 keccak-f[1600] rounds: round ir sets bit
2 ^ j - 1 of its constant to rc-bit j + 7 ir, for j up to 6. -/
def keccakRC : List Nat :=
  (List.range 24).map (fun ir =>
    (List.range 7).foldl
      (fun acc j => if rcBit (j + 7 * ir) = 1 then acc ||| (1 <<< (2 ^ j - 1)) else acc) 0)

/-- Rotation offsets of the rho step, indexed by lane position x + 5y:
starting from lane (1, 0), step t rotates its lane by the t-th triangular
number modulo 64 and moves to lane (y, 2x + 3y). -/
def rhoOffsets : List Nat :=
  ((List.range 24).foldl
    (fun acc t =>
      match acc with
      | (x, y, offs) =>
          (y, (2 * x + 3 * y) % 5, offs.set (x + 5 * y) ((t + 1) * (t + 2) / 2 % 64)))
    ((1, 0, List.replicate 25 0) : Nat × Nat × List Nat)).2.2

/-- Theta step of keccak-f: xor each lane with the parity of two columns. -/
def theta (st : List Nat) : List Nat :=
  let c := List.ofFn (fun x : Fin 5 =>
    st.getD x.val 0 ^^^ st.getD (x.val + 5) 0 ^^^ st.getD (x.val + 10) 0 ^^^
      st.getD (x.val + 15) 0 ^^^ st.getD (x.val + 20) 0)
  let d := fun x => c.getD ((x + 4) % 5) 0 ^^^ rotl64 (c.getD ((x + 1) % 5) 0) 1
  List.ofFn (fun i : Fin 25 => st.getD i.val 0 ^^^ d (i.val % 5))

/-- Combined rho (lane rotation) and pi (lane permutation) steps. -/
def rhoPi (st : List Nat) : List Nat :=
  (List.range 25).foldl
    (fun acc s =>
      let x := s % 5
      let y := s / 5
      acc.set (y + 5 * ((2 * x + 3 * y) % 5)) (rotl64 (st.getD s 0) (rhoOffsets.getD s 0)))
    (List.replicate 25 0)

/-- Chi step of keccak-f: the only non-linear step. -/
def chi (b : List Nat) : List Nat :=
  List.ofFn (fun i : Fin 25 =>
    let x := i.val % 5
    let row := i.val - x
    b.getD i.val 0 ^^^ (not64 (b.getD ((x + 1) % 5 + row) 0) &&& b.getD ((x + 2) % 5 + row) 0))

/-- The keccak-f[1600] permutation: 24 rounds of theta, rho, pi, chi, iota. -/
def keccakF (st : List Nat) : List Nat :=
  keccakRC.foldl (fun s rc => let b := chi (rhoPi (theta s)); b.set 0 (b.getD 0 0 ^^^ rc)) st

/-- Multi-rate padding of legacy Keccak (domain byte 0x01, final bit 0x80). -/
def keccakPad (len : Nat) : List Nat :=
  let p := 136 - len % 136
  if p = 1 then [0x81] else 0x01 :: (List.replicate (p - 2) 0 ++ [0x80])

/-- Pack up to eight bytes, little-endian, into one 64-bit lane. -/
def bytesToLane (bs : List Nat) : Nat :=
  bs.foldr (fun b acc => b + 256 * acc) 0

/-- Unpack one 64-bit lane into eight little-endian bytes. -/
def laneToBytes (n : Nat) : List Nat :=
  List.ofFn (fun j : Fin 8 => (n >>> (8 * j.val)) % 256)

/-- Split a byte list into consecutive chunks of exactly k bytes, dropping any
incomplete remainder: the semantics of Rust's chunks_exact, also used by the
keccak absorb loop. -/
def chunksExact (k : Nat) (l : List Nat) : List (List Nat) :=
  if k = 0 ∨ l.length < k then []
  else (l.take k) :: chunksExact k (l.drop k)
termination_by l.length
decreasing_by
  rename_i h
  push_neg at h
  simp [List.length_drop]
  omega

/-- Absorb one 136-byte block into the sponge state and permute. -/
def absorbBlock (st : List Nat) (block : List Nat) : List Nat :=
  keccakF (List.ofFn (fun i : Fin 25 =>
    if i.val < 17 then st.getD i.val 0 ^^^ bytesToLane ((block.drop (8 * i.val)).take 8)
    else st.getD i.val 0))

/-- The keccak256 hash of a byte list: pad, absorb every 136-byte block,
squeeze the first 32 bytes of the state. -/
def keccak256 (msg : List Nat) : List Nat :=
  let padded := msg ++ keccakPad msg.length
  let final := (chunksExact 136 padded).foldl absorbBlock (List.replicate 25 0)
  ((List.range 4).map (fun i => laneToBytes (final.getD i 0))).flatten

/-! ## Proof codec

Embedding of the Proof type and its encoding from signed_tx.rs.  A Rust
fixed-size array of 24 hashes of 32 bytes each becomes a list of 32-byte
chunks; the decode-time invariants are carried by the decoding function
itself, exactly as in the source.
-/

/-- HASH_LENGTH from signed_tx.rs. -/
def HASH_LENGTH : Nat := 32

/-- PROOF_LENGTH from signed_tx.rs. -/
def PROOF_LENGTH : Nat := 24

/-- Raw proof bytes: a fixed sequence of 24 elements of 32 bytes each. -/
structure Proof where
  hashes : List (List Nat)
deriving DecidableEq

/-- Decoding errors of the proof codec (ProofEncodingError in signed_tx.rs). -/
inductive ProofEncodingError where
  | InvalidLength (expected got : Nat)
  | InvalidHash (index : Nat)
deriving DecidableEq

/-- Convert the proof into a byte list: the hashes concatenated in order
(Proof::as_bytes). -/
def Proof.as_bytes (p : Proof) : List Nat :=
  p.hashes.flatten

/-- Per-chunk conversion step of Proof::try_from_slice: each chunk must fit a
32-byte hash, and a chunk of any other length reports InvalidHash at its
index (structurally unreachable once the length gate has passed, as in the
source). -/
def checkChunks : List (List Nat) → Nat → Except ProofEncodingError (List (List Nat))
  | [], _ => .ok []
  | c :: cs, i =>
      if c.length = HASH_LENGTH then (checkChunks cs (i + 1)).map (fun r => c :: r)
      else .error (.InvalidHash i)

/-- Convert a byte list into a proof (Proof::try_from_slice): reject any
input whose length is not exactly 768 bytes, then slice into 32-byte
hashes. -/
def Proof.try_from_slice (slice : List Nat) : Except ProofEncodingError Proof :=
  if slice.length ≠ HASH_LENGTH * PROOF_LENGTH then
    .error (.InvalidLength (HASH_LENGTH * PROOF_LENGTH) slice.length)
  else
    (checkChunks (chunksExact HASH_LENGTH slice) 0).map Proof.mk

/-! ## Signed submission model

Embedding of the remaining types of signed_tx.rs: the zero-knowledge proof
envelope, the proof manifest, the authentication payloads and the SignedTx
submission envelope, together with the canonical hash and signer recovery.
H256 values are 32-byte lists, U64 counters are naturals (the source reads
them back with as_u64), addresses are 20-byte lists.
-/

/-- The zero-knowledge proof (Zkp in signed_tx.rs). -/
structure Zkp where
  new_state_root : List Nat
  new_local_exit_root : List Nat
  proof : Proof
deriving DecidableEq

/-- Proof metadata along with its zero-knowledge proof (ProofManifest). -/
structure ProofManifest where
  rollup_id : Nat
  last_verified_batch : Nat
  new_verified_batch : Nat
  zkp : Zkp
deriving DecidableEq

/-- A recoverable ECDSA signature (the ethers Signature type: r, s, v). -/
structure Signature where
  r : Nat
  s : Nat
  v : Nat
deriving DecidableEq

/-- A signed consensus header (SignedHeader in signed_tx.rs). -/
structure SignedHeader where
  header : String
  commit : String
deriving DecidableEq

/-- A set of validator identifiers (Set in signed_tx.rs; the Rust HashSet is
embedded as a list of its elements). -/
structure ValidatorSet where
  validators : List String
deriving DecidableEq

/-- A provider identity (Id in signed_tx.rs). -/
structure ProviderId where
  id : String
deriving DecidableEq

/-- Committee-based attestation payload (ProofOfConsensusData). -/
structure ProofOfConsensusData where
  signed_header : SignedHeader
  validators : ValidatorSet
  next_validators : ValidatorSet
  provider : ProviderId
deriving DecidableEq

/-- All supported authentication methods (AuthMethod). -/
inductive AuthMethod where
  | Signature
  | ProofOfConsensus
deriving DecidableEq

/-- The submission envelope (SignedTx): the manifest plus the authentication
method selector and the two optional authentication payloads. -/
structure SignedTx where
  tx : ProofManifest
  auth_method : AuthMethod
  signature : Option Signature
  proof_of_consensus : Option ProofOfConsensusData
deriving DecidableEq

/-- ASCII bytes of a string (Rust str::as_bytes; every string hashed by the
source is pure ASCII, where UTF-8 and the character codes coincide). -/
def strBytes (s : String) : List Nat :=
  s.toList.map Char.toNat

/-- Lowercase hexadecimal rendering of a natural with 0x prefix and no
leading zeros: the Rust format string 0x{:x}. -/
def hexOfNat (n : Nat) : String :=
  "0x" ++ String.mk (Nat.toDigits 16 n)

/-- Lowercase hexadecimal rendering of a byte list, two digits per byte:
hex::encode. -/
def hexEncode (bs : List Nat) : String :=
  String.mk (bs.foldr (fun b acc => Nat.digitChar (b / 16 % 16) :: Nat.digitChar (b % 16) :: acc) [])

/-- Generate the hash that uniquely identifies this proof (SignedTx::hash):
keccak256 over the concatenation of the hex-encoded batch numbers, the raw
root bytes and the hex-encoded proof bytes. -/
def SignedTx.hash (stx : SignedTx) : List Nat :=
  let last_verified_batch_hex := hexOfNat stx.tx.last_verified_batch
  let new_verified_batch_hex := hexOfNat stx.tx.new_verified_batch
  let proof_hex := "0x" ++ hexEncode stx.tx.zkp.proof.as_bytes
  let data :=
    [strBytes last_verified_batch_hex,
     strBytes new_verified_batch_hex,
     stx.tx.zkp.new_state_root,
     stx.tx.zkp.new_local_exit_root,
     strBytes proof_hex].flatten
  keccak256 data

/-- The canonical hash preimage as the specification words it: the
hex-encoded last-verified-batch, the hex-encoded new-verified-batch, the raw
bytes of the new state root, the raw bytes of the new local exit root and
the hex-encoded proof bytes, concatenated in that fixed order. -/
def canonicalHashData (stx : SignedTx) : List Nat :=
  strBytes (hexOfNat stx.tx.last_verified_batch) ++
    strBytes (hexOfNat stx.tx.new_verified_batch) ++
    stx.tx.zkp.new_state_root ++
    stx.tx.zkp.new_local_exit_root ++
    strBytes ("0x" ++ hexEncode stx.tx.zkp.proof.as_bytes)

/-- Outcome of SignedTx::signer.  The source unwraps the optional signature,
so a missing signature is a panic, not an error value; the panic branch is
made explicit here. -/
inductive SignerResult where
  | panicked
  | result (r : Except String (List Nat))

/-- Attempt to recover the address of the signer (SignedTx::signer): unwrap
the optional signature and recover against the canonical hash.  The ECDSA
recovery primitive lives in the ethers library, outside this repository, so
it is passed in as an explicit function from signature and message hash to
an address or a signature error (represented by its message). -/
def SignedTx.signer (recover : Signature → List Nat → Except String (List Nat))
    (stx : SignedTx) : SignerResult :=
  match stx.signature with
  | none => .panicked
  | some sig => .result (recover sig stx.hash)

/-! ## Epoch clock

Embedding of TimeClock from crates/agglayer-clock/src/time.rs.  Wall-clock
instants are integers counting whole seconds (chrono's num_seconds applied
to a signed duration); the atomic u64 counters become plain naturals, since
only the single clock task ever writes them.  The tokio broadcast channel is
modelled by the list of the current subscribers' pending-event queues.
-/

/-- Events broadcast by a clock (Event in the agglayer-clock crate). -/
inductive Event where
  | EpochChange (epoch : Nat)
deriving DecidableEq

/-- Time based clock state: genesis instant, block counter, epoch duration
in blocks and epoch counter (TimeClock). -/
structure TimeClock where
  genesis : Int
  current_block : Nat
  epoch_duration : Nat
  current_epoch : Nat
deriving DecidableEq

/-- Computes the current block of this TimeClock (TimeClock::compute_block):
the number of whole seconds since genesis, clamped to zero when the current
instant is before genesis. -/
def TimeClock.compute_block (now : Int) (c : TimeClock) : TimeClock :=
  { c with current_block := (max (now - c.genesis) 0).toNat }

/-- Computes the current epoch of this TimeClock (TimeClock::compute_epoch):
the current block number divided by the epoch duration. -/
def TimeClock.compute_epoch (c : TimeClock) : TimeClock :=
  { c with current_epoch := c.current_block / c.epoch_duration }

/-- Create a new TimeClock instance based on a genesis instant and an epoch
duration (TimeClock::new): both counters are computed immediately from the
construction-time instant, so a freshly built clock already reflects the
elapsed time. -/
def TimeClock.new (now genesis : Int) (epoch_duration : Nat) : TimeClock :=
  (TimeClock.compute_block now
    { genesis := genesis, current_block := 0,
      epoch_duration := epoch_duration, current_epoch := 0 }).compute_epoch

/-- One tick of the running clock task (the body of the loop in
TimeClock::run): increment the block counter by one; when the new block
count is an exact multiple of the epoch duration, recompute the epoch
counter and emit an EpochChange event carrying it. -/
def TimeClock.tick (c : TimeClock) : TimeClock × Option Event :=
  let c1 := { c with current_block := c.current_block + 1 }
  if c1.current_block % c1.epoch_duration = 0 then
    let c2 := c1.compute_epoch
    (c2, some (.EpochChange c2.current_epoch))
  else
    (c1, none)

/-- Delivery of one broadcast event to the current subscribers (the tokio
broadcast send whose result the clock task discards): the event is appended
to every currently subscribed queue; with no subscriber nothing is stored
and nothing is queued for future subscribers. -/
def broadcastSend (subscribers : List (List Event)) (e : Event) : List (List Event) :=
  subscribers.map (fun q => q ++ [e])

/-- One tick of TimeClock::run together with its broadcast side effect:
the clock state advances and, on an epoch boundary, the event is delivered
to every current subscriber.  The send never fails the task: the result is
always a state and queues, with no error outcome. -/
def TimeClock.tickBroadcast (c : TimeClock) (subscribers : List (List Event)) :
    TimeClock × List (List Event) :=
  match c.tick with
  | (c1, none) => (c1, subscribers)
  | (c1, some e) => (c1, broadcastSend subscribers e)

/-! ## Intake pipeline

Embedding of send_tx from crates/agglayer-node/src/rpc/mod.rs.  The kernel's
collaborator methods (registration lookup, the three verification checks and
settlement) are external to the pipeline, so the Kernel is a record of
functions; collaborator errors reach the pipeline already rendered to
strings, as the source applies to_string in every map_err.  The try_join of
the three concurrent checks is determinised in their textual order: the
claims settled below speak only of the class of the resulting error, which
every schedule agrees on.  Telemetry counters and log lines of the source
never affect control flow and are omitted.
-/

/-- A JSON-RPC error object (jsonrpsee ErrorObject): numeric code, fixed
message, optional detail string. -/
structure ErrorObject where
  code : Int
  message : String
  data : Option String
deriving DecidableEq

/-- INVALID_PARAMS_CODE of jsonrpsee (the JSON-RPC invalid-params code). -/
def INVALID_PARAMS_CODE : Int := -32602

/-- INVALID_PARAMS_MSG of jsonrpsee. -/
def INVALID_PARAMS_MSG : String := "Invalid params"

/-- INTERNAL_ERROR_CODE of jsonrpsee (the JSON-RPC internal-error code). -/
def INTERNAL_ERROR_CODE : Int := -32603

/-- INTERNAL_ERROR_MSG of jsonrpsee. -/
def INTERNAL_ERROR_MSG : String := "Internal error"

/-- Helper function to create an invalid params error with a custom message
(invalid_params_error in rpc/mod.rs). -/
def invalid_params_error (msg : String) : ErrorObject :=
  { code := INVALID_PARAMS_CODE, message := INVALID_PARAMS_MSG, data := some msg }

/-- Helper function to create an internal error with a custom message
(internal_error in rpc/mod.rs). -/
def internal_error (msg : String) : ErrorObject :=
  { code := INTERNAL_ERROR_CODE, message := INTERNAL_ERROR_MSG, data := some msg }

/-- A settlement receipt, reduced to the field send_tx reads
(TransactionReceipt::transaction_hash). -/
structure TransactionReceipt where
  transaction_hash : List Nat
deriving DecidableEq

/-- The kernel as seen by send_tx: the external collaborator contracts of
the intake pipeline.  Verification and settlement errors are carried as
their display strings. -/
structure Kernel where
  check_rollup_registered : Nat → Bool
  verify_signature : SignedTx → Except String Unit
  verify_proof_eth_call : SignedTx → Except String Unit
  verify_proof_zkevm_node : SignedTx → Except String Unit
  settle : SignedTx → Except String TransactionReceipt

/-- Modelled from the spec: the display string of the kernel's
InvalidRollupId verification error (ZkevmNodeVerificationError in the kernel
module, which is not among the sources); the spec requires the
invalid-params detail to name the unregistered rollup id. -/
def invalid_rollup_id_msg (rollup_id : Nat) : String :=
  "invalid rollup id: " ++ toString rollup_id

/-- The send_tx pipeline of rpc/mod.rs: reject an unregistered rollup with
an invalid-params error; run the three verification checks, mapping any
failure to an invalid-params error; settle, mapping failure to an internal
error; return the settlement transaction hash. -/
def send_tx (k : Kernel) (tx : SignedTx) : Except ErrorObject (List Nat) :=
  if ¬ k.check_rollup_registered tx.tx.rollup_id then
    .error (invalid_params_error (invalid_rollup_id_msg tx.tx.rollup_id))
  else
    match k.verify_signature tx with
    | .error e => .error (invalid_params_error e)
    | .ok _ =>
      match k.verify_proof_eth_call tx with
      | .error e => .error (invalid_params_error e)
      | .ok _ =>
        match k.verify_proof_zkevm_node tx with
        | .error e => .error (invalid_params_error e)
        | .ok _ =>
          match k.settle tx with
          | .error e => .error (internal_error e)
          | .ok receipt => .ok receipt.transaction_hash

/-! ## Concrete example inputs

Closed values used to instantiate the theorems below at concrete inputs.
-/

/-- A concrete proof: 24 zero hashes. -/
def exProof : Proof := ⟨List.replicate PROOF_LENGTH (List.replicate HASH_LENGTH 0)⟩

/-- A concrete zero-knowledge proof envelope. -/
def exZkp : Zkp := ⟨List.replicate 32 1, List.replicate 32 2, exProof⟩

/-- A concrete proof manifest for rollup 1. -/
def exManifest : ProofManifest := ⟨1, 10, 11, exZkp⟩

/-- The same manifest rebound to rollup 2. -/
def exManifestRollup2 : ProofManifest := { exManifest with rollup_id := 2 }

/-- A concrete proof-of-consensus payload. -/
def exPoc : ProofOfConsensusData := ⟨⟨"header", "commit"⟩, ⟨["v1"]⟩, ⟨["v2"]⟩, ⟨"provider"⟩⟩

/-- A concrete signature-authenticated submission. -/
def exSigned : SignedTx := ⟨exManifest, .Signature, some ⟨1, 2, 27⟩, none⟩

/-- The same manifest submitted with consensus authentication instead. -/
def exConsensus : SignedTx := ⟨exManifest, .ProofOfConsensus, none, some exPoc⟩

/-- The signature-authenticated submission rebound to rollup 2. -/
def exSignedRollup2 : SignedTx := ⟨exManifestRollup2, .Signature, some ⟨1, 2, 27⟩, none⟩

/-- A concrete recovery function standing in for the external ECDSA
primitive in instantiations. -/
def exRecover : Signature → List Nat → Except String (List Nat) :=
  fun _ _ => .ok (List.replicate 20 0)

/-- A concrete settlement receipt. -/
def exReceipt : TransactionReceipt := ⟨List.replicate 32 3⟩

/-- A kernel whose signature check fails and whose other collaborators
succeed. -/
def exKernelSigFail : Kernel :=
  ⟨fun _ => true, fun _ => .error "bad signature", fun _ => .ok (), fun _ => .ok (),
    fun _ => .ok exReceipt⟩

/-- A kernel whose three checks succeed and whose settlement fails. -/
def exKernelSettleFail : Kernel :=
  ⟨fun _ => true, fun _ => .ok (), fun _ => .ok (), fun _ => .ok (),
    fun _ => .error "settlement failed"⟩

/-- A kernel that reports every rollup as unregistered. -/
def exKernelUnregistered : Kernel :=
  ⟨fun _ => false, fun _ => .ok (), fun _ => .ok (), fun _ => .ok (), fun _ => .ok exReceipt⟩

/-- A settlement collaborator that always succeeds. -/
def exSettleOk : SignedTx → Except String TransactionReceipt := fun _ => .ok exReceipt

/-- A clock state one tick before an epoch boundary: block 4 with epoch
duration 5. -/
def exTickClock : TimeClock := ⟨0, 4, 5, 0⟩

/-! ## Chunking lemmas -/

/-- Splitting a list whose length is a multiple of k into exact k-chunks
loses nothing: the chunks concatenate back to the list, and every chunk has
length exactly k. -/
theorem chunksExact_spec (k : Nat) (hk : 0 < k) :
    ∀ (n : Nat) (l : List Nat), l.length = k * n →
      (chunksExact k l).flatten = l ∧ ∀ c ∈ chunksExact k l, c.length = k := by
  intro n
  induction n with
  | zero =>
      intro l hl
      have hnil : l = [] := List.eq_nil_of_length_eq_zero (by omega)
      subst hnil
      rw [chunksExact]
      simp [hk]
  | succ n ih =>
      intro l hl
      have hge : k ≤ l.length := by
        have : k * (n + 1) = k * n + k := by ring
        omega
      have hcond : ¬ (k = 0 ∨ l.length < k) := by omega
      rw [chunksExact, if_neg hcond]
      have hdrop : (l.drop k).length = k * n := by
        simp [List.length_drop]
        have : k * (n + 1) = k * n + k := by ring
        omega
      obtain ⟨hflat, hlen⟩ := ih (l.drop k) hdrop
      refine ⟨?_, ?_⟩
      · simp only [List.flatten_cons, hflat, List.take_append_drop]
      · intro c hc
        rcases List.mem_cons.mp hc with hc | hc
        · subst hc
          simp [List.length_take]
          omega
        · exact hlen c hc

/-- Per-chunk conversion succeeds, returning the chunks unchanged, whenever
every chunk has the expected hash length: the InvalidHash branch is
unreachable after the length gate. -/
theorem checkChunks_ok :
    ∀ (cs : List (List Nat)) (i : Nat), (∀ c ∈ cs, c.length = HASH_LENGTH) →
      checkChunks cs i = .ok cs := by
  intro cs
  induction cs with
  | nil => intro i _; rfl
  | cons c cs ih =>
      intro i h
      have hc : c.length = HASH_LENGTH := h c (List.mem_cons_self c cs)
      have hcs : ∀ d ∈ cs, d.length = HASH_LENGTH := fun d hd => h d (List.mem_cons_of_mem c hd)
      simp [checkChunks, hc, ih (i + 1) hcs, Except.map]

/-! ## Claims about the proof codec -/

/-- C6: for every byte sequence whose length is not exactly 768,
Proof::try_from_slice fails with an InvalidLength error whose expected field
is 768 and whose got field is the actual input length; no Proof is
produced. -/
theorem proof_decode_wrong_length (l : List Nat) (h : l.length ≠ 768) :
    Proof.try_from_slice l = .error (.InvalidLength 768 l.length) := by
  have h768 : HASH_LENGTH * PROOF_LENGTH = 768 := by norm_num [HASH_LENGTH, PROOF_LENGTH]
  simp [Proof.try_from_slice, h768, h]

/-- Witness for C6: the empty input has length 0, not 768, and decoding it
reports InvalidLength with expected 768 and got 0. -/
theorem proof_decode_wrong_length_witness :
    ([] : List Nat).length ≠ 768 ∧
      Proof.try_from_slice [] = .error (.InvalidLength 768 ([] : List Nat).length) :=
  ⟨by decide, proof_decode_wrong_length [] (by decide)⟩

/-- C7: for every byte sequence of length exactly 768, Proof::try_from_slice
succeeds, and encoding the resulting Proof with as_bytes yields a byte
sequence identical to the input. -/
theorem proof_decode_encode_roundtrip (l : List Nat) (h : l.length = 768) :
    ∃ p, Proof.try_from_slice l = .ok p ∧ p.as_bytes = l := by
  have h768 : HASH_LENGTH * PROOF_LENGTH = 768 := by norm_num [HASH_LENGTH, PROOF_LENGTH]
  have hmul : l.length = HASH_LENGTH * PROOF_LENGTH := by omega
  obtain ⟨hflat, hlen⟩ :=
    chunksExact_spec HASH_LENGTH (by norm_num [HASH_LENGTH]) PROOF_LENGTH l hmul
  refine ⟨⟨chunksExact HASH_LENGTH l⟩, ?_, ?_⟩
  · simp [Proof.try_from_slice, h768, h, checkChunks_ok _ 0 hlen, Except.map]
  · simpa [Proof.as_bytes] using hflat

/-- Witness for C7: 768 zero bytes decode successfully and re-encode to the
same 768 bytes. -/
theorem proof_decode_encode_roundtrip_witness :
    (List.replicate 768 (0 : Nat)).length = 768 ∧
      ∃ p, Proof.try_from_slice (List.replicate 768 (0 : Nat)) = .ok p ∧
        p.as_bytes = List.replicate 768 (0 : Nat) :=
  ⟨by rw [List.length_replicate], proof_decode_encode_roundtrip _ (by rw [List.length_replicate])⟩

/-! ## Claims about the canonical hash and signer recovery -/

/-- C3: for any two SignedTx values whose tx manifests are equal,
SignedTx::hash returns the same digest regardless of their auth_method,
signature and proof_of_consensus fields: hash is a pure function of the tx
field only. -/
theorem hash_depends_only_on_tx (s1 s2 : SignedTx) (h : s1.tx = s2.tx) :
    s1.hash = s2.hash := by
  simp [SignedTx.hash, h]

/-- Witness for C3: a signature-authenticated and a consensus-authenticated
submission carrying the same manifest hash identically. -/
theorem hash_depends_only_on_tx_witness :
    exSigned.tx = exConsensus.tx ∧ exSigned.hash = exConsensus.hash :=
  ⟨rfl, hash_depends_only_on_tx exSigned exConsensus rfl⟩

/-- C4: for every SignedTx, SignedTx::hash equals keccak256 of the
concatenation, in this fixed order, of the hex-encoded last-verified-batch,
the hex-encoded new-verified-batch, the raw bytes of the new state root, the
raw bytes of the new local exit root and the hex-encoded proof bytes. -/
theorem hash_eq_keccak_of_canonical_data (s : SignedTx) :
    s.hash = keccak256 (canonicalHashData s) := by
  simp [SignedTx.hash, canonicalHashData]

/-- C10: for any two SignedTx values whose manifests agree on
last_verified_batch, new_verified_batch, new_state_root,
new_local_exit_root and proof but differ in rollup_id, SignedTx::hash
returns the same digest: the rollup identifier is not an input to the
canonical hash. -/
theorem hash_ignores_rollup_id (s1 s2 : SignedTx)
    (hlvb : s1.tx.last_verified_batch = s2.tx.last_verified_batch)
    (hnvb : s1.tx.new_verified_batch = s2.tx.new_verified_batch)
    (hsr : s1.tx.zkp.new_state_root = s2.tx.zkp.new_state_root)
    (hler : s1.tx.zkp.new_local_exit_root = s2.tx.zkp.new_local_exit_root)
    (hpf : s1.tx.zkp.proof = s2.tx.zkp.proof)
    (hrid : s1.tx.rollup_id ≠ s2.tx.rollup_id) :
    s1.hash = s2.hash := by
  simp [SignedTx.hash, hlvb, hnvb, hsr, hler, hpf]

/-- Witness for C10: the example submission bound to rollup 1 and its copy
bound to rollup 2 hash identically. -/
theorem hash_ignores_rollup_id_witness :
    exSigned.tx.rollup_id ≠ exSignedRollup2.tx.rollup_id ∧
      exSigned.hash = exSignedRollup2.hash :=
  ⟨by decide,
    hash_ignores_rollup_id exSigned exSignedRollup2 rfl rfl rfl rfl rfl (by decide)⟩

/-- C5: when a signature is present, SignedTx::signer returns the result of
recovering the signing address from the canonical hash with that signature,
and the unwrap's panic branch is unreachable; when no signature is present
the call is an unchecked unwrap-style failure. -/
theorem signer_requires_signature
    (recover : Signature → List Nat → Except String (List Nat)) (s : SignedTx) :
    (∀ sig, s.signature = some sig →
      SignedTx.signer recover s = .result (recover sig s.hash) ∧
        SignedTx.signer recover s ≠ .panicked) ∧
    (s.signature = none → SignedTx.signer recover s = .panicked) := by
  constructor
  · intro sig hsig
    refine ⟨by simp [SignedTx.signer, hsig], by simp [SignedTx.signer, hsig]⟩
  · intro h
    simp [SignedTx.signer, h]

/-- Witness for C5: the example signed submission carries a signature, so
signer recovery applies the recovery primitive to it and does not panic. -/
theorem signer_requires_signature_witness :
    SignedTx.signer exRecover exSigned = .result (exRecover ⟨1, 2, 27⟩ exSigned.hash) ∧
      SignedTx.signer exRecover exSigned ≠ .panicked :=
  (signer_requires_signature exRecover exSigned).1 ⟨1, 2, 27⟩ rfl

/-! ## Claims about the epoch clock -/

/-- C8: immediately after constructing a TimeClock from a genesis timestamp
and a positive epoch duration d, current_block equals max(0, now − genesis)
in whole seconds (clamped to zero, never negative) and current_epoch equals
current_block divided by d using integer division; in particular a genesis
30 seconds in the past with d = 5 gives current_epoch = 6. -/
theorem time_clock_new_spec (now genesis : Int) (d : Nat) (hd : 0 < d) :
    ((TimeClock.new now genesis d).current_block : Int) = max (now - genesis) 0 ∧
      (TimeClock.new now genesis d).current_epoch =
        (TimeClock.new now genesis d).current_block / d ∧
      (TimeClock.new 30 0 5).current_epoch = 6 := by
  refine ⟨?_, rfl, by decide⟩
  simp [TimeClock.new, TimeClock.compute_block, TimeClock.compute_epoch]

/-- Witness for C8: a genesis 30 seconds in the past with epoch duration 5
yields epoch 6 immediately after construction. -/
theorem time_clock_new_spec_witness : (TimeClock.new 30 0 5).current_epoch = 6 :=
  (time_clock_new_spec 30 0 5 (by decide)).2.2

/-- C9: on every tick of the running clock task the block counter is
incremented by exactly 1; an EpochChange event is emitted if and only if the
new block count is an exact multiple of the epoch duration, carrying the
epoch recomputed from the block counter before the broadcast; and with no
subscriber the broadcast is a no-op with nothing queued, never an error. -/
theorem clock_tick_spec (c : TimeClock) (hd : 0 < c.epoch_duration) :
    c.tick.1.current_block = c.current_block + 1 ∧
      (c.tick.2.isSome ↔ (c.current_block + 1) % c.epoch_duration = 0) ∧
      (∀ e, c.tick.2 = some e →
        e = Event.EpochChange ((c.current_block + 1) / c.epoch_duration) ∧
          c.tick.1.current_epoch = (c.current_block + 1) / c.epoch_duration) ∧
      (∀ e, broadcastSend [] e = []) ∧
      c.tickBroadcast [] = (c.tick.1, []) := by
  by_cases h : (c.current_block + 1) % c.epoch_duration = 0
  · refine ⟨?_, ?_, ?_, ?_, ?_⟩ <;>
      simp [TimeClock.tick, TimeClock.tickBroadcast, TimeClock.compute_epoch, broadcastSend, h]
  · refine ⟨?_, ?_, ?_, ?_, ?_⟩ <;>
      simp [TimeClock.tick, TimeClock.tickBroadcast, TimeClock.compute_epoch, broadcastSend, h]

/-- Witness for C9: ticking the example clock at block 4 with epoch duration
5 crosses the boundary to block 5 and recomputes epoch 1 before emitting it. -/
theorem clock_tick_spec_witness :
    exTickClock.tick.1.current_block = exTickClock.current_block + 1 ∧
      exTickClock.tick.1.current_epoch =
        (exTickClock.current_block + 1) / exTickClock.epoch_duration :=
  ⟨(clock_tick_spec exTickClock (by decide)).1,
    ((clock_tick_spec exTickClock (by decide)).2.2.1 (Event.EpochChange 1) (by decide)).2⟩

/-! ## Claims about the intake pipeline -/

/-- C1: for every submission processed by send_tx with a registered rollup:
if any one of the three verification checks fails, the result is an
invalid-params error and the settlement collaborator is never invoked (the
outcome is unchanged under any replacement of the settlement function); if
all three checks succeed, settlement is attempted, a settlement failure
yields an internal error — a kind distinct from invalid-params — and a
settlement success yields its transaction hash. -/
theorem send_tx_check_gating (k : Kernel) (tx : SignedTx)
    (hreg : k.check_rollup_registered tx.tx.rollup_id = true) :
    (((∃ e, k.verify_signature tx = .error e) ∨
        (∃ e, k.verify_proof_eth_call tx = .error e) ∨
        (∃ e, k.verify_proof_zkevm_node tx = .error e)) →
      (∃ m, send_tx k tx = .error (invalid_params_error m)) ∧
        ∀ st, send_tx { k with settle := st } tx = send_tx k tx) ∧
    (k.verify_signature tx = .ok () → k.verify_proof_eth_call tx = .ok () →
      k.verify_proof_zkevm_node tx = .ok () →
      (∀ e, k.settle tx = .error e → send_tx k tx = .error (internal_error e)) ∧
      (∀ r, k.settle tx = .ok r → send_tx k tx = .ok r.transaction_hash)) ∧
    (∀ m m', internal_error m ≠ invalid_params_error m') := by
  refine ⟨?_, ?_, ?_⟩
  · intro hfail
    cases h1 : k.verify_signature tx with
    | error e =>
        exact ⟨⟨e, by simp [send_tx, hreg, h1]⟩, fun st => by simp [send_tx, hreg, h1]⟩
    | ok u =>
        cases h2 : k.verify_proof_eth_call tx with
        | error e =>
            exact ⟨⟨e, by simp [send_tx, hreg, h1, h2]⟩,
              fun st => by simp [send_tx, hreg, h1, h2]⟩
        | ok v =>
            cases h3 : k.verify_proof_zkevm_node tx with
            | error e =>
                exact ⟨⟨e, by simp [send_tx, hreg, h1, h2, h3]⟩,
                  fun st => by simp [send_tx, hreg, h1, h2, h3]⟩
            | ok w =>
                exfalso
                rcases hfail with ⟨e, he⟩ | ⟨e, he⟩ | ⟨e, he⟩ <;>
                  simp_all
  · intro h1 h2 h3
    constructor
    · intro e he
      simp [send_tx, hreg, h1, h2, h3, he]
    · intro r hr
      simp [send_tx, hreg, h1, h2, h3, hr]
  · intro m m' hcontra
    have := congrArg ErrorObject.code hcontra
    simp [internal_error, invalid_params_error, INTERNAL_ERROR_CODE, INVALID_PARAMS_CODE] at this

/-- Witness for C1: with a failing signature check the pipeline reports
invalid params and its outcome ignores the settlement collaborator; with
all checks passing and settlement failing it reports an internal error. -/
theorem send_tx_check_gating_witness :
    (∃ m, send_tx exKernelSigFail exSigned = .error (invalid_params_error m)) ∧
      send_tx { exKernelSigFail with settle := exSettleOk } exSigned =
        send_tx exKernelSigFail exSigned ∧
      send_tx exKernelSettleFail exSigned = .error (internal_error "settlement failed") :=
  ⟨((send_tx_check_gating exKernelSigFail exSigned rfl).1
      (Or.inl ⟨"bad signature", rfl⟩)).1,
    ((send_tx_check_gating exKernelSigFail exSigned rfl).1
      (Or.inl ⟨"bad signature", rfl⟩)).2 exSettleOk,
    ((send_tx_check_gating exKernelSettleFail exSigned rfl).2.1 rfl rfl rfl).1
      "settlement failed" rfl⟩

/-- C2: a submission whose rollup id the registration collaborator reports
as unregistered yields an invalid-params error whose detail names that
rollup id, and the outcome is reached before — and therefore unchanged by —
any replacement of the three verification collaborators and the settlement
collaborator. -/
theorem send_tx_unregistered_rollup (k : Kernel) (tx : SignedTx)
    (h : k.check_rollup_registered tx.tx.rollup_id = false) :
    send_tx k tx = .error (invalid_params_error (invalid_rollup_id_msg tx.tx.rollup_id)) ∧
      (∃ p, invalid_rollup_id_msg tx.tx.rollup_id = p ++ toString tx.tx.rollup_id) ∧
      ∀ vs ve vz st,
        send_tx { k with verify_signature := vs, verify_proof_eth_call := ve, verify_proof_zkevm_node := vz, settle := st } tx =
          .error (invalid_params_error (invalid_rollup_id_msg tx.tx.rollup_id)) := by
  refine ⟨by simp [send_tx, h], ⟨"invalid rollup id: ", rfl⟩, ?_⟩
  intro vs ve vz st
  simp [send_tx, h]

/-- Witness for C2: a kernel that knows no rollup rejects the example
submission with the invalid-params error naming rollup 1, regardless of the
other collaborators. -/
theorem send_tx_unregistered_rollup_witness :
    send_tx exKernelUnregistered exSigned =
        .error (invalid_params_error (invalid_rollup_id_msg exSigned.tx.rollup_id)) ∧
      ∃ p, invalid_rollup_id_msg exSigned.tx.rollup_id = p ++ toString exSigned.tx.rollup_id :=
  ⟨(send_tx_unregistered_rollup exKernelUnregistered exSigned rfl).1,
    (send_tx_unregistered_rollup exKernelUnregistered exSigned rfl).2.1⟩

end Agglayer
